import Mathlib

/-!
Shallow embedding of the verifying-key and ciphersuite-trait layer of the
sideprotocol/frost repository (files `frost-core/src/traits.rs` and
`frost-core/src/verifying_key.rs`).

Rust `Result<T, E>` is modelled as `FrostResult E T`; a Rust `panic!` in a
default trait method is modelled by returning `none` from an `Option`-valued
function.  The generic `Field`/`Group`/`Ciphersuite` traits are modelled as
structures whose fields are the trait methods a ciphersuite must supply;
the trait's *default* method bodies are modelled as standalone functions
(named `*_default`) translated from the Rust default bodies.

The source contains two slightly divergent forms of the verifying-key code
(one threads `SigningParameters` through `verify_prehashed` and
`effective_pubkey_element`, one does not); following the spec's design note
the unified, parameter-threading form is embedded here, with the default
hook ignoring the parameters exactly as the parameterless form does.
-/

/-- The crate-level error enum (`crate::Error`), restricted to the variants
reached by the embedded code. -/
inductive FrostError where
  | InvalidSignature
  | IncorrectCommitment
  | MalformedVerifyingKey
deriving DecidableEq, Repr

/-- `GroupError`: low-level element-deserialization errors
(spec §7: `GroupError::InvalidElement`, `GroupError::IdentityElement`). -/
inductive GroupError where
  | InvalidElement
  | IdentityElement
deriving DecidableEq, Repr

/-- Rust `Result<α, ε>`. -/
inductive FrostResult (ε α : Type) where
  | ok (val : α)
  | error (err : ε)
deriving DecidableEq, Repr

/-- A verifying key wraps a single group element
(`VerifyingKey` in `verifying_key.rs`). -/
structure VerifyingKey (Elem : Type) where
  element : Elem
deriving DecidableEq, Repr

/-- A signature is a pair of a nonce-commitment element `R` and a response
scalar `z` (`Signature` in frost-core). -/
structure Signature (Scalar Elem : Type) where
  R : Elem
  z : Scalar
deriving DecidableEq, Repr

/-- A verifying share wraps a group element (`keys::VerifyingShare`). -/
structure VerifyingShare (Elem : Type) where
  element : Elem
deriving DecidableEq, Repr

/-- A per-signer group-commitment share wraps a group element
(`round1::GroupCommitmentShare`). -/
structure GroupCommitmentShare (Elem : Type) where
  element : Elem
deriving DecidableEq, Repr

/-- The full group commitment wraps a group element (`GroupCommitment`). -/
structure GroupCommitment (Elem : Type) where
  element : Elem
deriving DecidableEq, Repr

/-- A VSS coefficient commitment wraps a group element
(`keys::CoefficientCommitment`); `value` is its accessor. -/
structure CoefficientCommitment (Elem : Type) where
  value : Elem
deriving DecidableEq, Repr

/-- A VSS commitment is the ordered list of public coefficients
(`keys::VerifiableSecretSharingCommitment`). -/
structure VerifiableSecretSharingCommitment (Elem : Type) where
  coefficients : List (CoefficientCommitment Elem)
deriving DecidableEq, Repr

/-- Default body of `Field::negate` in `traits.rs` (lines 49-52): the body is
unconditionally `panic!("Not implemented")`, modelled as `none`. -/
def negate_default {Scalar : Type} (_scalar : Scalar) : Option Scalar :=
  none

/-- Default body of `Group::y_is_odd` in `traits.rs` (lines 127-131): the body
is unconditionally `panic!("Not implemented")`, modelled as `none`. -/
def y_is_odd_default {Elem : Type} (_element : Elem) : Option Bool :=
  none

/-- The `Group` trait (with its scalar `Field`) of `traits.rs`, as the record
of operations a ciphersuite's group must supply.  `scalarAdd`/`scalarMul` are
the `Add`/`Mul` bounds on `Field::Scalar`; `elemAdd`/`elemSub`/`scalarMulElem`
are the `Add`/`Sub`/`Mul<Scalar>` bounds on `Group::Element`.  `yIsOdd` is the
overridable `Group::y_is_odd` method (`Option`-valued: `none` models the
panicking default). -/
structure FrostGroup (Scalar Elem Bytes : Type) where
  scalarAdd : Scalar → Scalar → Scalar
  scalarMul : Scalar → Scalar → Scalar
  elemAdd : Elem → Elem → Elem
  elemSub : Elem → Elem → Elem
  scalarMulElem : Elem → Scalar → Elem
  cofactor : Scalar
  identity : Elem
  generator : Elem
  yIsOdd : Elem → Option Bool
  serialize : Elem → Bytes
  deserialize : Bytes → FrostResult GroupError Elem

/-- The `Ciphersuite` trait of `traits.rs`, restricted to the members the
embedded code uses: its group, the `challenge` hash (the free function
`crate::challenge`, outside the embedded files, abstracted as a field), and
the overridable `effective_pubkey_element` hook. -/
structure Ciphersuite (Scalar Elem Bytes SigParams : Type) where
  group : FrostGroup Scalar Elem Bytes
  challenge : Elem → VerifyingKey Elem → Bytes → Scalar
  effectivePubkeyElement : VerifyingKey Elem → SigParams → Elem

/-- Default body of `Ciphersuite::effective_pubkey_element` (`traits.rs`
lines 313-317): returns `verifying_key.to_element()`, ignoring the signing
parameters. -/
def effective_pubkey_element_default {Elem SigParams : Type}
    (verifying_key : VerifyingKey Elem) (_params : SigParams) : Elem :=
  verifying_key.element

/-- Default body of `Ciphersuite::effective_nonce_element` (`traits.rs`
lines 323-327): returns the input `R`. -/
def effective_nonce_element_default {Elem : Type} (R : Elem) : Elem :=
  R

/-- Default body of `Ciphersuite::effective_secret_key` (`traits.rs`
lines 334-339): returns `secret` unchanged. -/
def effective_secret_key_default {Scalar Elem : Type}
    (secret : Scalar) (_public : VerifyingKey Elem) : Scalar :=
  secret

/-- Default body of `Ciphersuite::effective_nonce_secret` (`traits.rs`
lines 345-350): returns the input `nonce`. -/
def effective_nonce_secret_default {Scalar Elem : Type}
    (nonce : Scalar) (_R : Elem) : Scalar :=
  nonce

/-- Default body of `Ciphersuite::effective_commitment_share` (`traits.rs`
lines 358-363): returns `group_commitment_share.to_element()`. -/
def effective_commitment_share_default {Elem : Type}
    (group_commitment_share : GroupCommitmentShare Elem)
    (_group_commitment : GroupCommitment Elem) : Elem :=
  group_commitment_share.element

/-- Default body of `Ciphersuite::effective_verifying_share` (`traits.rs`
lines 371-376): returns `verifying_share.to_element()`. -/
def effective_verifying_share_default {Elem : Type}
    (verifying_share : VerifyingShare Elem)
    (_verifying_key : VerifyingKey Elem) : Elem :=
  verifying_share.element

/-- Default body of `Ciphersuite::aggregate_sig_finalize` (`traits.rs`
lines 269-276): returns `Signature { R, z }`, ignoring the verifying key and
the message. -/
def aggregate_sig_finalize_default {Scalar Elem Bytes : Type}
    (z : Scalar) (R : Elem) (_verifying_key : VerifyingKey Elem)
    (_msg : Bytes) : Signature Scalar Elem :=
  { R := R, z := z }

/-- Default body of `Ciphersuite::single_sig_finalize` (`traits.rs`
lines 279-288): `z = k + challenge * secret`, returns `Signature { R, z }`. -/
def single_sig_finalize_default {Scalar Elem Bytes : Type}
    (G : FrostGroup Scalar Elem Bytes) (k : Scalar) (R : Elem)
    (secret : Scalar) (challenge : Scalar)
    (_verifying_key : VerifyingKey Elem) : Signature Scalar Elem :=
  let z := G.scalarAdd k (G.scalarMul challenge secret)
  { R := R, z := z }

/-- Default body of `Ciphersuite::HDKG` (`traits.rs` lines 215-217): DKG
hashing is unsupported by default, the body is `None`. -/
def HDKG_default {Scalar Bytes : Type} (_m : Bytes) : Option Scalar :=
  none

/-- Default body of `Ciphersuite::HID` (`traits.rs` lines 226-228):
identifier derivation is unsupported by default, the body is `None`. -/
def HID_default {Scalar Bytes : Type} (_m : Bytes) : Option Scalar :=
  none

/-- `VerifyingKey::to_element` (`verifying_key.rs` lines 37-39). -/
def VerifyingKey.to_element {Elem : Type} (self : VerifyingKey Elem) : Elem :=
  self.element

/-- `VerifyingKey::y_is_odd` (`verifying_key.rs` lines 49-51): delegates to
the group's `y_is_odd` (which panics unless the group overrides it). -/
def VerifyingKey.y_is_odd {Scalar Elem Bytes SigParams : Type}
    (C : Ciphersuite Scalar Elem Bytes SigParams)
    (self : VerifyingKey Elem) : Option Bool :=
  C.group.yIsOdd self.element

/-- `VerifyingKey::serialize` (`verifying_key.rs` lines 63-65). -/
def VerifyingKey.serialize {Scalar Elem Bytes SigParams : Type}
    (C : Ciphersuite Scalar Elem Bytes SigParams)
    (self : VerifyingKey Elem) : Bytes :=
  C.group.serialize self.element

/-- Modelled from the spec: the `From<GroupError> for Error` conversion
(the `e.into()` on `verifying_key.rs` line 59) lives outside the embedded
files; spec §4.C says element deserialization rejects the identity with
`IncorrectCommitment`, and §7 lists `MalformedVerifyingKey` as the
verifying-key deserialization error. -/
def groupErrorToError : GroupError → FrostError
  | GroupError.IdentityElement => FrostError.IncorrectCommitment
  | GroupError.InvalidElement => FrostError.MalformedVerifyingKey

/-- `VerifyingKey::deserialize` (`verifying_key.rs` lines 54-60): delegates
to `Group::deserialize`, wraps the element, converts the error. -/
def VerifyingKey.deserialize {Scalar Elem Bytes SigParams : Type}
    (C : Ciphersuite Scalar Elem Bytes SigParams)
    (bytes : Bytes) : FrostResult FrostError (VerifyingKey Elem) :=
  match C.group.deserialize bytes with
  | FrostResult.ok element => FrostResult.ok { element := element }
  | FrostResult.error e => FrostResult.error (groupErrorToError e)

/-- `VerifyingKey::verify_prehashed` (`verifying_key.rs` lines 69-91):
checks `h * (z * B - c * A - R) == 0` where `B` is the generator, `A` the
effective public key and `h` the cofactor. -/
def VerifyingKey.verify_prehashed {Scalar Elem Bytes SigParams : Type}
    [DecidableEq Elem]
    (C : Ciphersuite Scalar Elem Bytes SigParams)
    (self : VerifyingKey Elem) (challenge : Scalar)
    (signature : Signature Scalar Elem) (sig_params : SigParams) :
    FrostResult FrostError Unit :=
  let R := signature.R
  let vk := C.effectivePubkeyElement self sig_params
  let zB := C.group.scalarMulElem C.group.generator signature.z
  let cA := C.group.scalarMulElem vk challenge
  let check :=
    C.group.scalarMulElem (C.group.elemSub (C.group.elemSub zB cA) R)
      C.group.cofactor
  if check = C.group.identity then
    FrostResult.ok ()
  else
    FrostResult.error FrostError.InvalidSignature

/-- Default body of `Ciphersuite::verify_signature` (`traits.rs` lines
239-247): computes the challenge from `signature.R`, the public key and the
message, then calls `verify_prehashed`. -/
def verify_signature {Scalar Elem Bytes SigParams : Type} [DecidableEq Elem]
    (C : Ciphersuite Scalar Elem Bytes SigParams) (msg : Bytes)
    (signature : Signature Scalar Elem) (public_key : VerifyingKey Elem)
    (sig_params : SigParams) : FrostResult FrostError Unit :=
  let c := C.challenge signature.R public_key msg
  VerifyingKey.verify_prehashed C public_key c signature sig_params

/-- `VerifyingKey::from_commitment` (`verifying_key.rs` lines 104-114):
returns the first VSS coefficient's value as the key element, or
`IncorrectCommitment` when the coefficient list is empty. -/
def VerifyingKey.from_commitment {Elem : Type}
    (commitment : VerifiableSecretSharingCommitment Elem) :
    FrostResult FrostError (VerifyingKey Elem) :=
  match commitment.coefficients.head? with
  | some c => FrostResult.ok { element := c.value }
  | none => FrostResult.error FrostError.IncorrectCommitment

/-! ## A concrete toy ciphersuite, used to evaluate the generic theorems.

Group and scalar field are both `ZMod 5` (a prime-order group written
multiplicatively in the code but additively here), generator `1`,
identity `0`, cofactor `1`.  An element `e` serializes to the single
byte `e.val`; deserialization rejects out-of-range bytes and the
identity encoding `[0]`, as the `Group::deserialize` contract requires. -/

def zmod5Group : FrostGroup (ZMod 5) (ZMod 5) (List Nat) where
  scalarAdd := fun a b => a + b
  scalarMul := fun a b => a * b
  elemAdd := fun a b => a + b
  elemSub := fun a b => a - b
  scalarMulElem := fun e s => e * s
  cofactor := 1
  identity := 0
  generator := 1
  yIsOdd := fun e => y_is_odd_default e
  serialize := fun e => [e.val]
  deserialize := fun b =>
    match b with
    | [n] =>
      if n < 5 then
        if n = 0 then FrostResult.error GroupError.IdentityElement
        else FrostResult.ok (n : ZMod 5)
      else FrostResult.error GroupError.InvalidElement
    | _ => FrostResult.error GroupError.InvalidElement

def zmod5Suite : Ciphersuite (ZMod 5) (ZMod 5) (List Nat) Unit where
  group := zmod5Group
  challenge := fun R vk msg => R + vk.element + (msg.foldl (fun a n => a + n) 0 : Nat)
  effectivePubkeyElement := fun vk params => effective_pubkey_element_default vk params

/-! ## Claims -/

/-- Claim C1: for every verifying key, message and signature, default
signature verification succeeds exactly when the cofactored equation
h * (z * G - c * PK_eff - R) == O holds, where c is the challenge computed
from sig.R, the public key and the message, and PK_eff is the effective
public-key element; when the equation does not hold, verification returns
the error InvalidSignature. -/
theorem C1_verify_cofactored_equation {Scalar Elem Bytes SigParams : Type}
    [DecidableEq Elem]
    (C : Ciphersuite Scalar Elem Bytes SigParams)
    (public_key : VerifyingKey Elem) (msg : Bytes)
    (signature : Signature Scalar Elem) (sig_params : SigParams) :
    (verify_signature C msg signature public_key sig_params =
        FrostResult.ok () ↔
      C.group.scalarMulElem
          (C.group.elemSub
            (C.group.elemSub
              (C.group.scalarMulElem C.group.generator signature.z)
              (C.group.scalarMulElem
                (C.effectivePubkeyElement public_key sig_params)
                (C.challenge signature.R public_key msg)))
            signature.R)
          C.group.cofactor = C.group.identity) ∧
    (C.group.scalarMulElem
          (C.group.elemSub
            (C.group.elemSub
              (C.group.scalarMulElem C.group.generator signature.z)
              (C.group.scalarMulElem
                (C.effectivePubkeyElement public_key sig_params)
                (C.challenge signature.R public_key msg)))
            signature.R)
          C.group.cofactor ≠ C.group.identity →
      verify_signature C msg signature public_key sig_params =
        FrostResult.error FrostError.InvalidSignature) := by
  constructor
  · constructor
    · intro hok
      by_contra hne
      simp [verify_signature, VerifyingKey.verify_prehashed, hne] at hok
    · intro heq
      simp [verify_signature, VerifyingKey.verify_prehashed, heq]
  · intro hne
    simp [verify_signature, VerifyingKey.verify_prehashed, hne]

/-- Concrete evaluation of C1 on the toy suite: the cofactored check fails
at this input, and verification indeed returns InvalidSignature. -/
theorem C1_verify_cofactored_equation_witness :
    verify_signature zmod5Suite [] { R := (3 : ZMod 5), z := 0 } ⟨2⟩ () =
      FrostResult.error FrostError.InvalidSignature :=
  (C1_verify_cofactored_equation zmod5Suite ⟨2⟩ []
      { R := (3 : ZMod 5), z := 0 } ()).2 (by decide)

/-- Claim C2: from_commitment returns Ok with the commitment's constant
(first) coefficient when the coefficient list is non-empty, and fails with
IncorrectCommitment exactly when the coefficient list is empty. -/
theorem C2_from_commitment_first_coefficient {Elem : Type}
    (commitment : VerifiableSecretSharingCommitment Elem) :
    (VerifyingKey.from_commitment commitment =
        FrostResult.error FrostError.IncorrectCommitment ↔
      commitment.coefficients = []) ∧
    (∀ c cs, commitment.coefficients = c :: cs →
      VerifyingKey.from_commitment commitment =
        FrostResult.ok ⟨c.value⟩) := by
  obtain ⟨coeffs⟩ := commitment
  cases coeffs with
  | nil => simp [VerifyingKey.from_commitment]
  | cons c cs =>
    constructor
    · simp [VerifyingKey.from_commitment]
    · intro c' cs' h
      injection h with h1 h2
      simp [VerifyingKey.from_commitment, h1]

/-- Concrete evaluation of C2 on the toy group: the empty commitment is
rejected with IncorrectCommitment and a singleton commitment yields its
constant coefficient. -/
theorem C2_from_commitment_witness :
    VerifyingKey.from_commitment
        (⟨[]⟩ : VerifiableSecretSharingCommitment (ZMod 5)) =
      FrostResult.error FrostError.IncorrectCommitment ∧
    VerifyingKey.from_commitment
        (⟨[⟨(4 : ZMod 5)⟩]⟩ : VerifiableSecretSharingCommitment (ZMod 5)) =
      FrostResult.ok ⟨(4 : ZMod 5)⟩ :=
  ⟨(C2_from_commitment_first_coefficient ⟨[]⟩).1.mpr rfl,
   (C2_from_commitment_first_coefficient ⟨[⟨4⟩]⟩).2 ⟨4⟩ [] rfl⟩

/-- Claim C3 counterexample: a VSS commitment whose constant coefficient is
the identity element of the group is NOT rejected: from_commitment returns
Ok with an identity-valued verifying key — the function performs no identity
check. -/
theorem C3_from_commitment_identity_counterexample :
    VerifyingKey.from_commitment
        (⟨[⟨zmod5Group.identity⟩]⟩ :
          VerifiableSecretSharingCommitment (ZMod 5)) =
      FrostResult.ok ⟨zmod5Group.identity⟩ := by decide

/-- Claim C3 (amended): from_commitment performs no identity check: for
every VSS commitment whose non-empty coefficient list starts with the
identity element, from_commitment returns Ok with the identity-valued
verifying key rather than an error. -/
theorem C3_amended_no_identity_check {Scalar Elem Bytes : Type}
    (G : FrostGroup Scalar Elem Bytes)
    (commitment : VerifiableSecretSharingCommitment Elem)
    (c : CoefficientCommitment Elem)
    (cs : List (CoefficientCommitment Elem))
    (hcons : commitment.coefficients = c :: cs)
    (hid : c.value = G.identity) :
    VerifyingKey.from_commitment commitment =
      FrostResult.ok ⟨G.identity⟩ := by
  obtain ⟨coeffs⟩ := commitment
  simp only at hcons
  subst hcons
  simp [VerifyingKey.from_commitment, hid]

/-- Concrete evaluation of the amended C3 on the toy group. -/
theorem C3_amended_witness :
    VerifyingKey.from_commitment
        (⟨[⟨(0 : ZMod 5)⟩]⟩ : VerifiableSecretSharingCommitment (ZMod 5)) =
      FrostResult.ok ⟨zmod5Group.identity⟩ :=
  C3_amended_no_identity_check zmod5Group ⟨[⟨0⟩]⟩ ⟨0⟩ [] rfl (by decide)

/-- Claim C4: VerifyingKey deserialization returns Ok exactly when the
underlying Group deserialization succeeds; in particular a byte string that
encodes the identity element (rejected by the group with IdentityElement)
makes VerifyingKey.deserialize fail with the error IncorrectCommitment, and
a successful group deserialization yields the wrapped element. -/
theorem C4_deserialize_matches_group {Scalar Elem Bytes SigParams : Type}
    (C : Ciphersuite Scalar Elem Bytes SigParams) (bytes : Bytes) :
    (C.group.deserialize bytes =
        FrostResult.error GroupError.IdentityElement →
      VerifyingKey.deserialize C bytes =
        FrostResult.error FrostError.IncorrectCommitment) ∧
    (∀ e, C.group.deserialize bytes = FrostResult.ok e →
      VerifyingKey.deserialize C bytes = FrostResult.ok ⟨e⟩) ∧
    ((∃ vk, VerifyingKey.deserialize C bytes = FrostResult.ok vk) ↔
      ∃ e, C.group.deserialize bytes = FrostResult.ok e) := by
  refine ⟨?_, ?_, ?_⟩
  · intro h
    simp [VerifyingKey.deserialize, h, groupErrorToError]
  · intro e h
    simp [VerifyingKey.deserialize, h]
  · constructor
    · rintro ⟨vk, hvk⟩
      cases h : C.group.deserialize bytes with
      | ok e => exact ⟨e, rfl⟩
      | error e => simp [VerifyingKey.deserialize, h] at hvk
    · rintro ⟨e, he⟩
      exact ⟨⟨e⟩, by simp [VerifyingKey.deserialize, he]⟩

/-- Concrete evaluation of C4 on the toy suite: the identity encoding `[0]`
is rejected with IncorrectCommitment. -/
theorem C4_deserialize_witness :
    VerifyingKey.deserialize zmod5Suite [0] =
      FrostResult.error FrostError.IncorrectCommitment :=
  (C4_deserialize_matches_group zmod5Suite [0]).1 (by decide)

/-- Claim C5: each of the six default effective-value hooks is the identity:
it returns its principal input unchanged, or that input's underlying
element, for every input and auxiliary argument. -/
theorem C5_effective_hooks_default_identity {Scalar Elem SigParams : Type} :
    (∀ (vk : VerifyingKey Elem) (params : SigParams),
      effective_pubkey_element_default vk params = vk.element) ∧
    (∀ R : Elem, effective_nonce_element_default R = R) ∧
    (∀ (s : Scalar) (vk : VerifyingKey Elem),
      effective_secret_key_default s vk = s) ∧
    (∀ (k : Scalar) (R : Elem), effective_nonce_secret_default k R = k) ∧
    (∀ (share : GroupCommitmentShare Elem) (gc : GroupCommitment Elem),
      effective_commitment_share_default share gc = share.element) ∧
    (∀ (ys : VerifyingShare Elem) (vk : VerifyingKey Elem),
      effective_verifying_share_default ys vk = ys.element) :=
  ⟨fun _ _ => rfl, fun _ => rfl, fun _ _ => rfl, fun _ _ => rfl,
   fun _ _ => rfl, fun _ _ => rfl⟩

/-- Claim C6: the default single-signer finalizer returns exactly
Signature{R, z = k + c * sk_eff}, and the default aggregate finalizer
returns exactly Signature{R, z}, ignoring the verifying key and message. -/
theorem C6_finalize_defaults {Scalar Elem Bytes : Type}
    (G : FrostGroup Scalar Elem Bytes) (k : Scalar) (R : Elem)
    (secret challenge : Scalar) (vk : VerifyingKey Elem)
    (z : Scalar) (msg : Bytes) :
    single_sig_finalize_default G k R secret challenge vk =
      { R := R, z := G.scalarAdd k (G.scalarMul challenge secret) } ∧
    aggregate_sig_finalize_default z R vk msg = { R := R, z := z } :=
  ⟨rfl, rfl⟩

/-- Claim C7: round-trip of verifying keys: when the underlying group's
serialize/deserialize round-trips on non-identity elements, a verifying key
whose element is not the identity deserializes from its own serialization
back to itself. -/
theorem C7_verifying_key_round_trip {Scalar Elem Bytes SigParams : Type}
    (C : Ciphersuite Scalar Elem Bytes SigParams)
    (vk : VerifyingKey Elem)
    (hne : vk.element ≠ C.group.identity)
    (hrt : ∀ e : Elem, e ≠ C.group.identity →
      C.group.deserialize (C.group.serialize e) = FrostResult.ok e) :
    VerifyingKey.deserialize C (VerifyingKey.serialize C vk) =
      FrostResult.ok vk := by
  obtain ⟨e⟩ := vk
  simp [VerifyingKey.deserialize, VerifyingKey.serialize, hrt e hne]

/-- Concrete evaluation of C7 on the toy suite, where the group round-trip
hypothesis holds by computation. -/
theorem C7_round_trip_witness :
    VerifyingKey.deserialize zmod5Suite
        (VerifyingKey.serialize zmod5Suite ⟨(2 : ZMod 5)⟩) =
      FrostResult.ok ⟨(2 : ZMod 5)⟩ :=
  C7_verifying_key_round_trip zmod5Suite ⟨2⟩ (by decide) (by decide)

/-- Claim C8: signature verification is deterministic: two invocations of
verify_prehashed (or of the default verify_signature) on equal verifying
keys, equal challenges/messages, equal signatures and equal signing
parameters return equal results. -/
theorem C8_verify_deterministic {Scalar Elem Bytes SigParams : Type}
    [DecidableEq Elem]
    (C : Ciphersuite Scalar Elem Bytes SigParams)
    (pk1 pk2 : VerifyingKey Elem) (c1 c2 : Scalar)
    (sig1 sig2 : Signature Scalar Elem) (p1 p2 : SigParams)
    (msg1 msg2 : Bytes)
    (hpk : pk1 = pk2) (hc : c1 = c2) (hsig : sig1 = sig2) (hp : p1 = p2)
    (hmsg : msg1 = msg2) :
    VerifyingKey.verify_prehashed C pk1 c1 sig1 p1 =
      VerifyingKey.verify_prehashed C pk2 c2 sig2 p2 ∧
    verify_signature C msg1 sig1 pk1 p1 =
      verify_signature C msg2 sig2 pk2 p2 := by
  subst hpk hc hsig hp hmsg
  exact ⟨rfl, rfl⟩

/-- Concrete evaluation of C8 on the toy suite. -/
theorem C8_verify_deterministic_witness :
    VerifyingKey.verify_prehashed zmod5Suite ⟨(2 : ZMod 5)⟩ 1
        { R := (3 : ZMod 5), z := 0 } () =
      VerifyingKey.verify_prehashed zmod5Suite ⟨(2 : ZMod 5)⟩ 1
        { R := (3 : ZMod 5), z := 0 } () ∧
    verify_signature zmod5Suite [] { R := (3 : ZMod 5), z := 0 } ⟨2⟩ () =
      verify_signature zmod5Suite [] { R := (3 : ZMod 5), z := 0 } ⟨2⟩ () :=
  C8_verify_deterministic zmod5Suite ⟨2⟩ ⟨2⟩ 1 1
    { R := (3 : ZMod 5), z := 0 } { R := (3 : ZMod 5), z := 0 } () () [] []
    rfl rfl rfl rfl rfl

/-- Claim C9: the default bodies of Field negate and Group y-parity are
unconditional panics (modelled as none), and for any ciphersuite whose group
keeps the default parity method, VerifyingKey parity panics on every key. -/
theorem C9_default_parity_hooks_panic {Scalar Elem Bytes SigParams : Type} :
    (∀ s : Scalar, negate_default s = none) ∧
    (∀ e : Elem, y_is_odd_default e = none) ∧
    (∀ (C : Ciphersuite Scalar Elem Bytes SigParams)
        (vk : VerifyingKey Elem),
      C.group.yIsOdd = (fun e => y_is_odd_default e) →
      VerifyingKey.y_is_odd C vk = none) := by
  refine ⟨fun _ => rfl, fun _ => rfl, fun C vk h => ?_⟩
  simp [VerifyingKey.y_is_odd, h, y_is_odd_default]

/-- Concrete evaluation of C9: the toy suite keeps the default parity
method, so its VerifyingKey parity is none (a panic) on a concrete key. -/
theorem C9_default_parity_witness :
    VerifyingKey.y_is_odd zmod5Suite ⟨(2 : ZMod 5)⟩ = none :=
  C9_default_parity_hooks_panic.2.2 zmod5Suite ⟨2⟩ rfl

/-- Claim C10: the default optional hash hooks HDKG and HID return none for
every byte-string input. -/
theorem C10_hdkg_hid_default_none {Scalar Bytes : Type} (m : Bytes) :
    @HDKG_default Scalar Bytes m = none ∧
    @HID_default Scalar Bytes m = none :=
  ⟨rfl, rfl⟩
